import Mathlib

/-!
Shallow embedding of the postsais content-operations tool.

The definitions below are translated from the TypeScript source:
  services/sheets.ts   (sheet range addressing, batch worker, import handler)
  services/wordpress.ts (URL normalization, four-tier fallback client, media upload)
  services/gemini.ts   (API-key collection and key-rotation loop)
  components/BulkPostManager.tsx (per-draft publish orchestration)

External HTTP calls are modelled as oracles (functions from a call index or
a queue item to the observed response), so every control-flow decision of
the source is reproduced while the network itself stays abstract.

String primitives are implemented over `List Char` so that all definitions
reduce inside the kernel (`decide`/`rfl` on concrete inputs).
-/

namespace Postsais

/-- Position of the first occurrence of `m` in `l` (leftmost match of a plain
substring search). -/
def matchPosAny (m : List Char) : List Char → Option Nat
  | [] => none
  | c :: cs =>
      if (c :: cs).take m.length == m then some 0
      else (matchPosAny m cs).map (· + 1)

/-- JS `s.includes(pat)` for a nonempty pattern and the argument shapes used
in the source (both strings nonempty). -/
def includesStr (s pat : String) : Bool :=
  (matchPosAny pat.data s.data).isSome

/-- JS `String.prototype.trim` restricted to the ASCII whitespace actually
appearing in this application. -/
def jsTrim (s : String) : String :=
  String.mk (((s.data.dropWhile Char.isWhitespace).reverse.dropWhile Char.isWhitespace).reverse)

/-- Whether `l` begins with `p`. -/
def beginsWith (p l : List Char) : Bool :=
  l.take p.length == p

/-! ## Import Source Client: sheet writeback addressing (services/sheets.ts, updateSheetCell) -/

/-- `const sheetRow = rowIndex + 2` — data row 0 is spreadsheet row 2 because
reading started at A2 (row 1 holds headers). -/
def sheetRowOf (rowIndex : Nat) : Nat := rowIndex + 2

/-- The A1-style range written by `updateSheetCell`:
`const range = columnLetter + sheetRow` with default column F. -/
def updateSheetRange (columnLetter : String) (rowIndex : Nat) : String :=
  columnLetter ++ toString (sheetRowOf rowIndex)

/-! ## Reachability-Resilient API Client: URL normalization (services/wordpress.ts, cleanWpUrl) -/

/-- Case-insensitive test of the JS regex `^https?:\/\/`. -/
def hasHttpProtocol (s : String) : Bool :=
  beginsWith "http://".data (s.data.map Char.toLower) ||
  beginsWith "https://".data (s.data.map Char.toLower)

/-- JS `clean.replace(/\/$/, '')`: drop one trailing slash if present. -/
def stripTrailingSlash (s : String) : String :=
  match s.data.getLast? with
  | some '/' => String.mk s.data.dropLast
  | _ => s

/-- Position of the first occurrence of `m` in the character list that is
followed by no newline: the JS pattern `<m>.*$` (no `m` regex flag) only
matches where `.*` can run to the very end of the string. -/
def matchPosNoNl (m : List Char) : List Char → Option Nat
  | [] => none
  | c :: cs =>
      if (c :: cs).take m.length == m && !((c :: cs).drop m.length).contains '\n' then
        some 0
      else
        (matchPosNoNl m cs).map (· + 1)

/-- JS `s.replace(/<marker>.*$/, '')`: truncate at the first occurrence of
`marker` that has no newline after it; otherwise leave `s` unchanged. -/
def stripTailFrom (marker s : String) : String :=
  match matchPosNoNl marker.data s.data with
  | some i => String.mk (s.data.take i)
  | none => s

/-- `cleanWpUrl` from services/wordpress.ts: trim, default the scheme to
https, drop a trailing slash, then cut pasted `/wp-admin`, `/wp-login.php`
and `/wp-json` suffixes. -/
def cleanWpUrl (url : String) : String :=
  let clean := jsTrim url
  let clean := if hasHttpProtocol clean then clean else "https://" ++ clean
  let clean := stripTrailingSlash clean
  let clean := stripTailFrom "/wp-admin" clean
  let clean := stripTailFrom "/wp-login.php" clean
  let clean := stripTailFrom "/wp-json" clean
  clean

/-! ## Reachability-Resilient API Client: four-tier fallback
(services/wordpress.ts, fetchWpWithFallback / uploadWpMedia)

Each tier performs exactly one `fetch`; the oracle `resp : Nat → WpResponse`
gives the observed outcome of the i-th call (0-based tier index). -/

/-- Outcome of one `fetch` call: a 2xx response with its JSON body, a non-2xx
HTTP status, or a network-level rejection carrying its message. -/
inductive WpResponse where
  | ok (body : String)
  | status (code : Nat)
  | netError (msg : String)
deriving Repr, DecidableEq

/-- Tier labels used in the error texts of `fetchWpWithFallback`. -/
def tierLabel : Nat → String
  | 0 => "Strategy 1 (Direct Standard)"
  | 1 => "Strategy 2 (Direct Fallback)"
  | 2 => "Strategy 3 (Proxy Standard)"
  | _ => "Strategy 4 (Proxy Fallback)"

/-- The authentication-failure message raised by `tryStrategy` when a tier
answers 401 or 403. -/
def authDeniedMsg (label : String) : String :=
  "Erro 401/403: Acesso Negado em " ++ label ++ ". Verifique Usuário e Senha."

/-- `tryStrategy` from `fetchWpWithFallback`: a 2xx response succeeds with its
body; 401/403 raise `AUTH_ERROR`, converted in the same catch block to the
labelled access-denied message; any other status raises `Status <code>`;
a thrown fetch error is rethrown (after the same `AUTH_ERROR` message check). -/
def tryStrategy (label : String) (r : WpResponse) : Except String String :=
  let raw : Except String String :=
    match r with
    | .ok body => .ok body
    | .status c => if c = 401 || c = 403 then .error "AUTH_ERROR" else .error ("Status " ++ toString c)
    | .netError m => .error m
  match raw with
  | .ok b => .ok b
  | .error m => if m = "AUTH_ERROR" then .error (authDeniedMsg label) else .error m

/-- The CORS/502 diagnostic assembled when every strategy failed and the last
recorded error looks like a blocked fetch. -/
def corsFailureMsg (baseUrl : String) : String :=
  "FALHA CRÍTICA (CORS/502): Não foi possível conectar ao site " ++ baseUrl ++ ".\n\n" ++
  "Possíveis causas:\n" ++
  "1. Firewall (Wordfence, Cloudflare) bloqueando a API REST.\n" ++
  "2. Bloqueio de região (Geo-block) no servidor.\n" ++
  "3. Permalinks não configurados corretamente.\n\n" ++
  "Solução: Tente instalar um plugin de \"CORS\" no WordPress ou whitelistar o domínio."

/-- The error thrown after tier 4 fails non-terminally: `lastError` holds the
tier-3 failure (tier 4 does not update it), upgraded to the CORS diagnostic
when it mentions a fetch failure or a 502. -/
def finalDiagnostic (baseUrl lastErr : String) : String :=
  let msg := if lastErr = "" then "Falha na conexão." else lastErr
  if includesStr msg "Failed to fetch" || includesStr msg "502" then corsFailureMsg baseUrl else msg

/-- `fetchWpWithFallback`: four strategies in order, each catch rethrowing
immediately when the message contains "Acesso Negado" and otherwise recording
the error and falling through; returns the successful body or the final error
together with the number of `fetch` calls issued. -/
def fetchWpWithFallback (baseUrl : String) (resp : Nat → WpResponse) :
    Except String String × Nat :=
  match tryStrategy (tierLabel 0) (resp 0) with
  | .ok b => (.ok b, 1)
  | .error m0 =>
    if includesStr m0 "Acesso Negado" then (.error m0, 1)
    else
      match tryStrategy (tierLabel 1) (resp 1) with
      | .ok b => (.ok b, 2)
      | .error m1 =>
        if includesStr m1 "Acesso Negado" then (.error m1, 2)
        else
          match tryStrategy (tierLabel 2) (resp 2) with
          | .ok b => (.ok b, 3)
          | .error m2 =>
            if includesStr m2 "Acesso Negado" then (.error m2, 3)
            else
              match tryStrategy (tierLabel 3) (resp 3) with
              | .ok b => (.ok b, 4)
              | .error m3 =>
                if includesStr m3 "Acesso Negado" then (.error m3, 4)
                else (.error (finalDiagnostic baseUrl m2), 4)

/-- `tryUpload` from `uploadWpMedia`: one binary POST; only a 401 maps to
`AUTH_ERROR` (a 403 becomes the generic `Status 403`), everything else is the
generic status or the network error message. The returned body stands for the
media id taken from the JSON response. -/
def tryUpload (r : WpResponse) : Except String String :=
  match r with
  | .ok body => .ok body
  | .status c => if c = 401 then .error "AUTH_ERROR" else .error ("Status " ++ toString c)
  | .netError m => .error m

/-- `uploadWpMedia`: the same four-tier URL order re-implemented with nested
try/catch; the `AUTH_ERROR` check appears only in the first catch, so only a
401 on tier 1 short-circuits — every other failure falls through. Returns the
media id (as the response body) plus the number of calls issued. -/
def uploadWpMedia (resp : Nat → WpResponse) : Except String String × Nat :=
  match tryUpload (resp 0) with
  | .ok d => (.ok d, 1)
  | .error e1 =>
    if e1 = "AUTH_ERROR" then (.error "Erro de Autenticação ao enviar imagem.", 1)
    else
      match tryUpload (resp 1) with
      | .ok d => (.ok d, 2)
      | .error _ =>
        match tryUpload (resp 2) with
        | .ok d => (.ok d, 3)
        | .error _ =>
          match tryUpload (resp 3) with
          | .ok d => (.ok d, 4)
          | .error _ => (.error "Falha ao enviar imagem (Todas as estratégias falharam).", 4)

/-! ## Generation Client: key collection and rotation (services/gemini.ts) -/

/-- `getAvailableApiKeys`: stored keys from local storage (already
deduplicated at insertion time by the settings screen), then the build-time
environment key appended only when truthy and not already present, then a
filter keeping keys whose trimmed form is nonempty. `stored = none` models a
missing or unparsable local-storage entry. -/
def getAvailableApiKeys (stored : Option (List String)) (envKey : Option String) : List String :=
  let keys := stored.getD []
  let keys :=
    match envKey with
    | some k => if k ≠ "" ∧ k ∉ keys then keys ++ [k] else keys
    | none => keys
  keys.filter (fun k => 0 < (jsTrim k).length)

/-- Outcome of one generation request with one API key: a response carrying
its text (possibly empty), or a thrown error with its message. -/
inductive GenAttempt where
  | ok (text : String)
  | err (msg : String)
deriving Repr, DecidableEq

/-- Error message raised when a key returns a response with empty text. -/
def emptyTextMsg : String := "API retornou resposta vazia."

/-- Configuration error raised when no API key is available. -/
def noGeminiKeysMsg : String :=
  "Nenhuma chave API do Gemini encontrada. Configure nas Configurações ou no arquivo .env"

/-- The `for (const apiKey of apiKeys)` rotation loop of
`generateGuestPostContent`: one attempt per key in order, returning the first
non-empty text immediately; an empty text raises `emptyTextMsg`; any failure
stores `lastError` and continues; an exhausted loop throws the last error.
`attempt i` is the outcome of the request made with the i-th key; the second
component counts the attempts actually performed from this point on. -/
def rotateKeys (attempt : Nat → GenAttempt) : Nat → List String → String → Except String String × Nat
  | _, [], lastErr =>
      (.error (if lastErr = "" then "Todas as chaves API falharam." else lastErr), 0)
  | i, _ :: rest, _lastErr =>
      match attempt i with
      | .ok t =>
          if t = "" then
            let r := rotateKeys attempt (i + 1) rest emptyTextMsg
            (r.1, r.2 + 1)
          else
            (.ok t, 1)
      | .err m =>
          let r := rotateKeys attempt (i + 1) rest m
          (r.1, r.2 + 1)

/-- `generateGuestPostContent` (rotation part): fail with the configuration
error before any network attempt when the key list is empty, otherwise run
the rotation loop. Returns the produced text or error, and the number of
attempts made. -/
def generateGuestPostContent (attempt : Nat → GenAttempt) (apiKeys : List String) :
    Except String String × Nat :=
  if apiKeys = [] then (.error noGeminiKeysMsg, 0)
  else rotateKeys attempt 0 apiKeys ""

/-! ## Batch Queue Engine: data model (types.ts, App state in services/sheets.ts) -/

/-- `GuestPostRequest` from types.ts; `id` is the opaque `generateId()` value,
modelled as a number. -/
structure GuestPostRequest where
  id : Nat
  keyword : String
  hostNiche : String
  targetLink : String
  anchorText : String
  targetNiche : String
deriving Repr, DecidableEq

/-- `QueueItem` from types.ts. -/
structure QueueItem where
  id : Nat
  request : GuestPostRequest
  rowIndex : Nat
  sheetId : String
  status : String
deriving Repr, DecidableEq

/-- `BatchProgress` from types.ts. -/
structure BatchProgress where
  isActive : Bool
  total : Nat
  processed : Nat
  currentKeyword : String
  logs : List String
deriving Repr, DecidableEq

/-- `GeneratedArticle` from types.ts, without the wall-clock `createdAt` and
the random `id` (both opaque fresh values with no influence on control flow). -/
structure GeneratedArticle where
  requestId : Nat
  title : String
  content : String
  status : String
  driveUrl : String
  driveId : String
deriving Repr, DecidableEq

/-- Result of `uploadToDrive`: the public view link and the file id. -/
structure DriveResult where
  webViewLink : String
  id : String
deriving Repr, DecidableEq

/-- Outcomes of the three external calls a job pipeline can make:
`generateGuestPostContent`, `uploadToDrive`, `updateSheetCell`. -/
structure JobEffects where
  gen : Except String String
  drive : Except String DriveResult
  sheet : Except String Unit
deriving Repr

/-! ## Batch Queue Engine: one job pipeline (processNextItem body) -/

/-- First line of the form `#<whitespace><rest>`:
`content.match(/^#\s+(.+)$/m)` restricted to single-line matches, returning
the captured `<rest>` (with the regex backtracking that hands one whitespace
character back to `(.+)` on all-blank remainders). -/
def hashTitleOfLine (line : String) : Option String :=
  match line.data with
  | '#' :: t =>
      let w := (t.takeWhile Char.isWhitespace).length
      if w = 0 then none
      else if w < t.length then some (String.mk (t.drop w))
      else if 2 ≤ w then some (String.mk (t.drop (w - 1)))
      else none
  | _ => none

/-- Split a string at newline characters (JS lines for the `/m` regexes). -/
def splitLines (s : String) : List String :=
  (s.data.splitOn '\n').map String.mk

/-- JS `s.replace(/\*\*/g, '')`: delete every occurrence of `**`. -/
def removeBoldMarks : List Char → List Char
  | '*' :: '*' :: rest => removeBoldMarks rest
  | c :: rest => c :: removeBoldMarks rest
  | [] => []

/-- Title extraction in the worker:
`content.match(/^#\s+(.+)$/m) || content.match(/^(.+)$/m)`, then
`titleMatch[1].replace(/\*\*/g, '')`, falling back to the keyword. -/
def extractTitle (content keyword : String) : String :=
  let lines := splitLines content
  match lines.findSome? hashTitleOfLine with
  | some t => String.mk (removeBoldMarks t.data)
  | none =>
      match lines.find? (fun l => l ≠ "") with
      | some l => String.mk (removeBoldMarks l.data)
      | none => keyword

/-- The catch-block cleanup: `error.message || "Erro desconhecido"`, then
`errorMsg.split('GoogleGenAIError:')[1].trim()` when that marker occurs. -/
def cleanupErrorMsg (msg : String) : String :=
  let msg := if msg = "" then "Erro desconhecido" else msg
  match matchPosAny "GoogleGenAIError:".data msg.data with
  | some i => jsTrim (String.mk (msg.data.drop (i + "GoogleGenAIError:".data.length)))
  | none => msg

/-- The log line `addLog` emits from the catch block. -/
def errorLogFor (keyword msg : String) : String :=
  "Erro em \"" ++ keyword ++ "\": " ++ cleanupErrorMsg msg

/-- The success log line emitted after the article is stored. -/
def successLogFor (keyword : String) : String :=
  "Sucesso: \"" ++ keyword ++ "\" - Link salvo na planilha."

/-- What one execution of the try/catch body of `processNextItem` contributes:
the log lines appended, the article prepended to history on success, and the
sheet range written by `updateSheetCell` when the writeback happened. -/
structure JobOutcome where
  logsAdded : List String
  article : Option GeneratedArticle
  writebackRange : Option String
deriving Repr, DecidableEq

/-- The try/catch body of `processNextItem` for one queue item, with the
external calls supplied by `effects`. Mirrors the source order: generation
(demo or API), title extraction, Drive upload guarded by the token, the
`Atualizando planilha...` log, the sheet writeback, then article storage and
the success log; any failure jumps to the catch block, which logs the cleaned
error. -/
def runJobBody (isDemoMode : Bool) (batchToken : Option String)
    (effects : QueueItem → JobEffects) (item : QueueItem) : JobOutcome :=
  let kw := item.request.keyword
  let startLog := "Iniciando: " ++ kw
  if isDemoMode then
    let content := "# " ++ kw ++ " (Demo)\n\nConteúdo gerado automaticamente..."
    let article : GeneratedArticle :=
      { requestId := item.request.id, title := kw, content := content,
        status := "completed", driveUrl := "https://docs.google.com/demo-link",
        driveId := "demo-id" }
    { logsAdded := [startLog, "Artigo gerado. Salvando...", successLogFor kw],
      article := some article, writebackRange := none }
  else
    match (effects item).gen with
    | .error m =>
        { logsAdded := [startLog, errorLogFor kw m], article := none, writebackRange := none }
    | .ok content =>
        let title := extractTitle content kw
        match batchToken with
        | none =>
            { logsAdded := [startLog, "Artigo gerado. Salvando...",
                errorLogFor kw "Token de autenticação perdido."],
              article := none, writebackRange := none }
        | some _ =>
            match (effects item).drive with
            | .error m =>
                { logsAdded := [startLog, "Artigo gerado. Salvando...", errorLogFor kw m],
                  article := none, writebackRange := none }
            | .ok dr =>
                match (effects item).sheet with
                | .error m =>
                    { logsAdded := [startLog, "Artigo gerado. Salvando...",
                        "Atualizando planilha...", errorLogFor kw m],
                      article := none, writebackRange := none }
                | .ok _ =>
                    let article : GeneratedArticle :=
                      { requestId := item.request.id, title := title,
                        content := content, status := "completed",
                        driveUrl := dr.webViewLink, driveId := dr.id }
                    { logsAdded := [startLog, "Artigo gerado. Salvando...",
                        "Atualizando planilha...", successLogFor kw],
                      article := some article,
                      writebackRange := some (updateSheetRange "F" item.rowIndex) }

/-- The rate-limit wait of the finally block:
`if (!isDemoMode && queue.length > 1) await delay(3000)`, evaluated while the
finished job is still at the head of the queue. Returns the waited
milliseconds. -/
def cooldownAfterJob (isDemoMode : Bool) (queueAtFinish : List QueueItem) : Nat :=
  if isDemoMode = false ∧ 1 < queueAtFinish.length then 3000 else 0

/-! ## Batch Queue Engine: app state, import handler, sequential run -/

/-- `AppMode` from types.ts. -/
inductive AppMode where
  | SINGLE | HISTORY | SETTINGS | WORDPRESS | BULK_PUBLISH
deriving Repr, DecidableEq

/-- The slice of the App component state the batch subsystem reads and
writes. -/
structure AppState where
  mode : AppMode
  queue : List QueueItem
  isProcessingBatch : Bool
  batchProgress : BatchProgress
  batchToken : Option String
  isDemoMode : Bool
  articles : List GeneratedArticle
  bulkImportData : Option (String × List (List String) × String)
deriving Repr

/-- `row[i] || dflt`: positional cell access with the JS falsy default. -/
def cellOr (row : List String) (i : Nat) (dflt : String) : String :=
  let v := row.getD i ""
  if v = "" then dflt else v

/-- One `QueueItem` built by `handleSheetImport` from the row at position
`index`; the opaque `generateId()` values are modelled by the row position. -/
def buildQueueItem (sheetId : String) (index : Nat) (row : List String) : QueueItem :=
  { id := index,
    request :=
      { id := index, keyword := row.getD 0 "",
        hostNiche := cellOr row 1 "Geral", targetLink := cellOr row 2 "#",
        anchorText := cellOr row 3 "link", targetNiche := cellOr row 4 "Geral" },
    rowIndex := index, sheetId := sheetId, status := "pending" }

/-- The `rowsToProcess.forEach` loop of `handleSheetImport`: rows whose first
cell is falsy are skipped, every other row becomes one queue item carrying
its original position as `rowIndex`. -/
def buildQueue (sheetId : String) (rows : List (List String)) : List QueueItem :=
  rows.enum.filterMap fun p =>
    if p.2.getD 0 "" = "" then none else some (buildQueueItem sheetId p.1 p.2)

/-- `DEMO_ROWS` from services/sheets.ts. -/
def demoRows : List (List String) :=
  [["Importância do Yoga no Trabalho", "Blog de RH e Carreira",
    "https://lojasports.com/kits-yoga", "kits de yoga corporativo", "E-commerce Esportivo"],
   ["Estratégias de Marketing Digital 2024", "Portal de Tecnologia",
    "https://agenciaxyz.com/seo", "consultoria de SEO", "Agência de Marketing"],
   ["Dicas de Alimentação Saudável", "Revista Vida Leve",
    "https://nutriapp.com", "app de nutrição", "Aplicativo Mobile"]]

/-- First log line written when an import starts a batch. -/
def importStartLog (n : Nat) : String :=
  "Importado " ++ toString n ++ " linhas. Iniciando fila..."

/-- `handleSheetImport`: in bulk-publish mode the data is only redirected; in
generation mode the rows (or the demo rows) become a fresh queue which
replaces the current one, and Batch Progress is reinitialized
unconditionally (total := new length, processed := 0, logs := fresh). An
arriving import with no valid row only raises a notification and changes
nothing modelled here. -/
def handleSheetImport (sheetId : String) (rows : List (List String)) (token : String)
    (s : AppState) : AppState :=
  if s.mode = AppMode.BULK_PUBLISH then
    { s with bulkImportData := some (sheetId, rows, token) }
  else
    let rowsToProcess := if s.isDemoMode then demoRows else rows
    let newQueue := buildQueue sheetId rowsToProcess
    if newQueue = [] then s
    else
      { s with
        batchToken := some token,
        queue := newQueue,
        batchProgress :=
          { isActive := true, total := newQueue.length, processed := 0,
            currentKeyword := "", logs := [importStartLog newQueue.length] } }

/-- State update performed by `processNextItem` around one job: the start-time
`currentKeyword` update plus the finally block (remove the head, bump
`processed`, clear the in-flight flag), together with the logs and article of
the given outcome. -/
def finishItem (s : AppState) (item : QueueItem) (rest : List QueueItem)
    (out : JobOutcome) : AppState :=
  { s with
    queue := rest,
    isProcessingBatch := false,
    batchProgress :=
      { s.batchProgress with
        isActive := true,
        currentKeyword := item.request.keyword,
        logs := s.batchProgress.logs ++ out.logsAdded,
        processed := s.batchProgress.processed + 1 },
    articles := (match out.article with | some a => a :: s.articles | none => s.articles) }

/-- Trace of one completed job: the dequeued item, what its pipeline did and
how long the rate-limit cool-down waited afterwards. -/
structure StepTrace where
  item : QueueItem
  outcome : JobOutcome
  cooldownMs : Nat
deriving Repr

/-- The batch worker run to quiescence: the effect re-fires after every queue
or flag change and processes the head job to completion before the next one
starts (single consumer), so the run is the fold of `runJobBody`/`finishItem`
over the queue. `fuel` bounds the number of jobs processed; with
`fuel ≥ queue.length` the queue drains completely. Also returns the ordered
trace of completed jobs. -/
def runBatch (effects : QueueItem → JobEffects) :
    Nat → AppState → AppState × List StepTrace
  | 0, s => (s, [])
  | fuel + 1, s =>
      match s.queue with
      | [] => (s, [])
      | item :: rest =>
          let out := runJobBody s.isDemoMode s.batchToken effects item
          let cd := cooldownAfterJob s.isDemoMode s.queue
          let r := runBatch effects fuel (finishItem s item rest out)
          (r.1, { item := item, outcome := out, cooldownMs := cd } :: r.2)

/-! ## Batch Queue Engine: event-interleaving view (concurrency guard)

The worker effect can be invoked at any time (it re-runs on every change of
`queue`, `isProcessingBatch`, `batchToken` or `isDemoMode`), and
`handleSheetImport` can run while a job is awaiting a network call. The
states below carry the implicit in-flight job (the `item = queue[0]` the
running effect body holds) explicitly, so overlap is observable. -/

/-- Engine state with the in-flight jobs made explicit. `inFlight` lists the
jobs some invocation of the effect body is currently processing. -/
structure EngineState where
  queue : List QueueItem
  isProcessingBatch : Bool
  inFlight : List QueueItem
  total : Nat
  processed : Nat
deriving Repr

/-- Initial App state: empty queue, no batch running. -/
def initEngine : EngineState :=
  { queue := [], isProcessingBatch := false, inFlight := [], total := 0, processed := 0 }

/-- One synchronous invocation of the effect up to its first await:
`if (queue.length === 0 || isProcessingBatch) return;` then
`setIsProcessingBatch(true); const item = queue[0];`. The guard and the flag
write happen with no suspension point in between, so they form one atomic
event. -/
def invokeConsumer (s : EngineState) : EngineState :=
  match s.queue, s.isProcessingBatch with
  | [], _ => s
  | _ :: _, true => s
  | item :: _, false =>
      { s with isProcessingBatch := true, inFlight := s.inFlight ++ [item] }

/-- Events of the engine: an invocation of the worker effect, the finally
block of a running body (`setQueue(prev => prev.slice(1))`, `processed + 1`,
`setIsProcessingBatch(false)`), and `handleSheetImport` replacing the queue
and resetting the counters mid-run. -/
inductive EngineStep : EngineState → EngineState → Prop where
  | invoke (s : EngineState) : EngineStep s (invokeConsumer s)
  | finish (s : EngineState) :
      s.isProcessingBatch = true →
      EngineStep s
        { s with queue := s.queue.drop 1, isProcessingBatch := false,
                 inFlight := [], processed := s.processed + 1 }
  | importJobs (s : EngineState) (newJobs : List QueueItem) :
      newJobs ≠ [] →
      EngineStep s
        { s with queue := newJobs, total := newJobs.length, processed := 0 }

/-- Reachability from the initial App state under any interleaving of
engine events. -/
inductive ReachesEngine : EngineState → Prop where
  | init : ReachesEngine initEngine
  | step {s t : EngineState} : ReachesEngine s → EngineStep s t → ReachesEngine t

/-! ## Publish Orchestrator (components/BulkPostManager.tsx, handlePublish) -/

/-- The `BulkPostDraft` status values. -/
inductive DraftStatus where
  | idle | loading_doc | publishing | success | error
deriving Repr, DecidableEq

/-- `BulkPostDraft` from types.ts, with the attached image `File` modelled by
its presence. -/
structure BulkPostDraft where
  id : Nat
  keyword : String
  title : String
  content : String
  slug : String
  metaDesc : String
  matchedSiteId : String
  hasImage : Bool
  categoryId : String
  status : DraftStatus
  errorMsg : String
  publishedLink : String
deriving Repr, DecidableEq

/-- The network requests `handlePublish` can issue, in order of emission. -/
inductive PublishEvent where
  | uploadImage
  | createPost
deriving Repr, DecidableEq

/-- `handlePublish`: nothing happens without a matched, existing site;
otherwise the draft enters `publishing` with a cleared error message, the
image (when present) is uploaded first, and only after a successful upload is
the post created; the catch block parks the draft in `error` with the thrown
message, success stores the returned public link. `upload` and `create` are
the observed outcomes of `uploadWpMedia` and `createWpPost`; the returned
list records which requests were issued, in order. -/
def handlePublish (sites : List String) (upload : Except String String)
    (create : Except String String) (d : BulkPostDraft) :
    BulkPostDraft × List PublishEvent :=
  if d.matchedSiteId = "" then (d, [])
  else if d.matchedSiteId ∉ sites then (d, [])
  else
    let dPub := { d with status := DraftStatus.publishing, errorMsg := "" }
    if d.hasImage then
      match upload with
      | .error m => ({ dPub with status := DraftStatus.error, errorMsg := m },
          [PublishEvent.uploadImage])
      | .ok _mediaId =>
          match create with
          | .error m => ({ dPub with status := DraftStatus.error, errorMsg := m },
              [PublishEvent.uploadImage, PublishEvent.createPost])
          | .ok link => ({ dPub with status := DraftStatus.success, publishedLink := link },
              [PublishEvent.uploadImage, PublishEvent.createPost])
    else
      match create with
      | .error m => ({ dPub with status := DraftStatus.error, errorMsg := m },
          [PublishEvent.createPost])
      | .ok link => ({ dPub with status := DraftStatus.success, publishedLink := link },
          [PublishEvent.createPost])

/-- The disabled condition of the publish control (BulkPostManager.tsx line
430): publishing or succeeded drafts, drafts without a site, and drafts whose
document is still loading cannot be (re)submitted. -/
def publishButtonDisabled (d : BulkPostDraft) : Bool :=
  d.status = DraftStatus.publishing ∨ d.status = DraftStatus.success ∨
    d.matchedSiteId = "" ∨ d.status = DraftStatus.loading_doc

/-! ## Shared concrete inputs for witnesses -/

/-- A sample queue item used by the closed witness statements. -/
def sampleItem : QueueItem := buildQueueItem "sheet1" 0 ["Palavra"]

/-- Effects where every external call succeeds. -/
def effectsAllOk : QueueItem → JobEffects :=
  fun _ => { gen := Except.ok "# Titulo\n\nCorpo", drive := Except.ok ⟨"https://doc/1", "d1"⟩,
             sheet := Except.ok () }

/-! ## Claim theorems -/

/-- C9: base-URL normalization enforces a default https scheme, strips one
trailing slash and strips pasted `/wp-admin`, `/wp-login.php` and `/wp-json`
suffixes; `example.com/wp-admin/` normalizes to exactly
`https://example.com`, and the case of the host is preserved. -/
theorem cleanWpUrl_normalizes :
    cleanWpUrl "example.com/wp-admin/" = "https://example.com" ∧
    cleanWpUrl "Example.COM/wp-admin/" = "https://Example.COM" ∧
    cleanWpUrl "example.com/wp-login.php?redirect=1" = "https://example.com" ∧
    cleanWpUrl "example.com/wp-json/wp/v2" = "https://example.com" ∧
    cleanWpUrl "http://example.com/" = "http://example.com" ∧
    cleanWpUrl "example.com" = "https://example.com" := by
  decide

/-- The sheet writeback of a job pipeline, when it happens, addresses column F
at the row the item carries plus the header offset. -/
theorem runJobBody_writeback_range (demo : Bool) (token : Option String)
    (effects : QueueItem → JobEffects) (item : QueueItem) (r : String)
    (h : (runJobBody demo token effects item).writebackRange = some r) :
    r = "F" ++ toString (item.rowIndex + 2) := by
  unfold runJobBody at h
  split at h
  · simp at h
  · split at h
    · simp at h
    · split at h
      · simp at h
      · split at h
        · simp at h
        · split at h
          · simp at h
          · simp only [Option.some.injEq] at h
            exact h.symm

/-- Trace entries of a batch run record exactly the outcome `runJobBody`
computes from the run-constant demo flag and token of the starting state. -/
theorem runBatch_trace_outcome (effects : QueueItem → JobEffects) :
    ∀ (fuel : Nat) (s : AppState), ∀ e ∈ (runBatch effects fuel s).2,
      e.outcome = runJobBody s.isDemoMode s.batchToken effects e.item := by
  intro fuel
  induction fuel with
  | zero => intro s e he; simp [runBatch] at he
  | succ n ih =>
      intro s e he
      match hq : s.queue with
      | [] => simp [runBatch, hq] at he
      | item :: rest =>
          simp only [runBatch, hq, List.mem_cons] at he
          rcases he with he | he
          · subst he; rfl
          · have := ih (finishItem s item rest (runJobBody s.isDemoMode s.batchToken effects item)) e he
            simpa [finishItem] using this

/-- C10: the spreadsheet writeback of every job targets exactly the row the
job was created from — the written range is the given column (default F) at
sheet row rowIndex + 2, so rowIndex 0 writes F2 and rowIndex 5 writes F7; an
item keeps the row position it was built from at import time, and every
writeback recorded in a batch run uses that unrenumbered index. -/
theorem updateSheetCell_targets_origin_row :
    (updateSheetRange "F" 0 = "F2") ∧
    (updateSheetRange "F" 5 = "F7") ∧
    (∀ col rowIndex, updateSheetRange col rowIndex = col ++ toString (rowIndex + 2)) ∧
    (∀ demo token effects item r,
        (runJobBody demo token effects item).writebackRange = some r →
        r = "F" ++ toString (item.rowIndex + 2)) ∧
    (∀ sheetId i rows row, (i, row) ∈ rows.enum → row.getD 0 "" ≠ "" →
        buildQueueItem sheetId i row ∈ buildQueue sheetId rows ∧
        (buildQueueItem sheetId i row).rowIndex = i) ∧
    (∀ effects fuel s, ∀ e ∈ (runBatch effects fuel s).2,
        ∀ r, e.outcome.writebackRange = some r →
        r = updateSheetRange "F" e.item.rowIndex) := by
  refine ⟨by decide, by decide, fun col rowIndex => rfl, runJobBody_writeback_range,
    ?_, ?_⟩
  · intro sheetId i rows row hmem hkw
    refine ⟨List.mem_filterMap.mpr ⟨(i, row), hmem, ?_⟩, rfl⟩
    have hkw2 : ¬ row[0]?.getD "" = "" := by simpa [List.getD] using hkw
    simp [List.getD, hkw2]
  · intro effects fuel s e he r hr
    rw [runBatch_trace_outcome effects fuel s e he] at hr
    exact runJobBody_writeback_range _ _ _ _ _ hr

/-- C10 witness: a concrete successful job built from row 5 writes range F7. -/
theorem updateSheetCell_targets_origin_row_witness :
    (runJobBody false (some "tok") effectsAllOk (buildQueueItem "sheet1" 5 ["kw"])).writebackRange
        = some "F7" ∧
    "F7" = "F" ++ toString ((buildQueueItem "sheet1" 5 ["kw"]).rowIndex + 2) :=
  ⟨by decide,
   updateSheetCell_targets_origin_row.2.2.2.1 false (some "tok") effectsAllOk
     (buildQueueItem "sheet1" 5 ["kw"]) "F7" (by decide)⟩

/-- C8: after a job finishes, the consumer waits the fixed 3-second cool-down
exactly when it is not in demo mode and more jobs remain behind the finished
one; no wait in demo mode or when the finished job was the last. -/
theorem cooldown_policy (item : QueueItem) (rest : List QueueItem) :
    (rest ≠ [] → cooldownAfterJob false (item :: rest) = 3000) ∧
    cooldownAfterJob true (item :: rest) = 0 ∧
    cooldownAfterJob false [item] = 0 ∧
    (∀ effects fuel s, s.queue = item :: rest →
        ((runBatch effects (fuel + 1) s).2.head?.map StepTrace.cooldownMs)
          = some (cooldownAfterJob s.isDemoMode (item :: rest))) := by
  refine ⟨?_, by simp [cooldownAfterJob], by simp [cooldownAfterJob], ?_⟩
  · intro h
    simp [cooldownAfterJob]
    exact h
  · intro effects fuel s hq
    simp [runBatch, hq]

/-- C8 witness: concrete queues showing the 3000 ms wait with one more job
pending outside demo mode, and no wait otherwise. -/
theorem cooldown_policy_witness :
    cooldownAfterJob false [sampleItem, buildQueueItem "sheet1" 1 ["Outra"]] = 3000 ∧
    cooldownAfterJob true [sampleItem, buildQueueItem "sheet1" 1 ["Outra"]] = 0 ∧
    cooldownAfterJob false [sampleItem] = 0 :=
  ⟨(cooldown_policy sampleItem [buildQueueItem "sheet1" 1 ["Outra"]]).1 (by simp),
   (cooldown_policy sampleItem [buildQueueItem "sheet1" 1 ["Outra"]]).2.1,
   (cooldown_policy sampleItem [buildQueueItem "sheet1" 1 ["Outra"]]).2.2.1⟩

/-- C6: a 404 on tier 1 is not terminal — the client falls through to tier 2,
and a 200 there returns the tier-2 body after exactly 2 calls. -/
theorem fallback_404_tier1_falls_through (baseUrl body : String) (resp : Nat → WpResponse)
    (h0 : resp 0 = WpResponse.status 404) (h1 : resp 1 = WpResponse.ok body) :
    fetchWpWithFallback baseUrl resp = (Except.ok body, 2) := by
  unfold fetchWpWithFallback
  rw [h0, h1]
  rfl

/-- Concrete oracle: 404 on the first call, 200 afterwards. -/
def resp404then200 : Nat → WpResponse
  | 0 => WpResponse.status 404
  | _ => WpResponse.ok "categorias"

/-- C6 witness: the concrete 404-then-200 exchange. -/
theorem fallback_404_tier1_falls_through_witness :
    fetchWpWithFallback "https://example.com" resp404then200 = (Except.ok "categorias", 2) :=
  fallback_404_tier1_falls_through "https://example.com" "categorias" resp404then200 rfl rfl

/-- A 401 or a 403 makes `tryStrategy` raise the labelled access-denied
message. -/
theorem tryStrategy_auth (label : String) (c : Nat) (hc : c = 401 ∨ c = 403) :
    tryStrategy label (WpResponse.status c) = Except.error (authDeniedMsg label) := by
  rcases hc with h | h <;> subst h <;> rfl

/-- In the generic JSON client a 401/403 at any tier stops the fallback at
that tier with the labelled authentication error. -/
theorem fetch_auth_terminal (baseUrl : String) (resp : Nat → WpResponse) (k c : Nat)
    (hk : k < 4)
    (hprev : ∀ j, j < k → ∃ m, tryStrategy (tierLabel j) (resp j) = Except.error m ∧
        includesStr m "Acesso Negado" = false)
    (hc : c = 401 ∨ c = 403) (hr : resp k = WpResponse.status c) :
    fetchWpWithFallback baseUrl resp = (Except.error (authDeniedMsg (tierLabel k)), k + 1) := by
  interval_cases k
  · unfold fetchWpWithFallback
    rw [hr, tryStrategy_auth _ _ hc]
    simp [show includesStr (authDeniedMsg (tierLabel 0)) "Acesso Negado" = true from by decide]
  · obtain ⟨m0, hm0, hi0⟩ := hprev 0 (by omega)
    unfold fetchWpWithFallback
    rw [hm0, hr, tryStrategy_auth _ _ hc]
    simp [hi0,
      show includesStr (authDeniedMsg (tierLabel 1)) "Acesso Negado" = true from by decide]
  · obtain ⟨m0, hm0, hi0⟩ := hprev 0 (by omega)
    obtain ⟨m1, hm1, hi1⟩ := hprev 1 (by omega)
    unfold fetchWpWithFallback
    rw [hm0, hm1, hr, tryStrategy_auth _ _ hc]
    simp [hi0, hi1,
      show includesStr (authDeniedMsg (tierLabel 2)) "Acesso Negado" = true from by decide]
  · obtain ⟨m0, hm0, hi0⟩ := hprev 0 (by omega)
    obtain ⟨m1, hm1, hi1⟩ := hprev 1 (by omega)
    obtain ⟨m2, hm2, hi2⟩ := hprev 2 (by omega)
    unfold fetchWpWithFallback
    rw [hm0, hm1, hm2, hr, tryStrategy_auth _ _ hc]
    simp [hi0, hi1, hi2,
      show includesStr (authDeniedMsg (tierLabel 3)) "Acesso Negado" = true from by decide]

/-- Concrete oracle: 403 on the first call, success afterwards. -/
def respMedia403 : Nat → WpResponse
  | 0 => WpResponse.status 403
  | _ => WpResponse.ok "77"

/-- C3 counterexample: the media-upload path does not apply the same
classification rules as the JSON path — on the very same responses (403 at
tier 1, success at tier 2) the JSON client stops terminally after one call
with the authentication error, while `uploadWpMedia` falls through and
succeeds on tier 2 after two calls. -/
theorem media_classification_differs_counterexample :
    uploadWpMedia respMedia403 = (Except.ok "77", 2) ∧
    fetchWpWithFallback "https://example.com" respMedia403
      = (Except.error (authDeniedMsg (tierLabel 0)), 1) :=
  ⟨rfl, rfl⟩

/-- C3 amended: 401/403 at any tier is terminal for the generic JSON client,
which stops at that tier with an authentication error naming the tier (one
call total for a 401 at tier 1); the binary media path re-implements the
same four-tier ordering but with weaker classification: only a 401 at tier 1
is terminal — a 403 at any tier and a 401 at tiers 2–4 fall through to the
next tier. -/
theorem auth_terminal_fetch_media_amended :
    (∀ baseUrl resp k c, k < 4 →
      (∀ j, j < k → ∃ m, tryStrategy (tierLabel j) (resp j) = Except.error m ∧
          includesStr m "Acesso Negado" = false) →
      (c = 401 ∨ c = 403) → resp k = WpResponse.status c →
      fetchWpWithFallback baseUrl resp = (Except.error (authDeniedMsg (tierLabel k)), k + 1) ∧
      includesStr (authDeniedMsg (tierLabel k)) (tierLabel k) = true) ∧
    (∀ resp : Nat → WpResponse, resp 0 = WpResponse.status 401 →
      uploadWpMedia resp = (Except.error "Erro de Autenticação ao enviar imagem.", 1)) ∧
    (∀ (resp : Nat → WpResponse) (d : String),
      resp 0 = WpResponse.status 403 → resp 1 = WpResponse.ok d →
      uploadWpMedia resp = (Except.ok d, 2)) ∧
    (∀ (resp : Nat → WpResponse) (m d : String),
      resp 0 = WpResponse.netError m → m ≠ "AUTH_ERROR" →
      resp 1 = WpResponse.status 401 → resp 2 = WpResponse.ok d →
      uploadWpMedia resp = (Except.ok d, 3)) := by
  refine ⟨?_, ?_, ?_, ?_⟩
  · intro baseUrl resp k c hk hprev hc hr
    refine ⟨fetch_auth_terminal baseUrl resp k c hk hprev hc hr, ?_⟩
    interval_cases k <;> decide
  · intro resp h
    unfold uploadWpMedia
    rw [h]
    rfl
  · intro resp d h0 h1
    unfold uploadWpMedia
    rw [h0, h1]
    rfl
  · intro resp m d h0 hm h1 h2
    unfold uploadWpMedia
    rw [h0, h1, h2]
    simp [tryUpload, hm]

/-- Concrete oracle: 401 on the first call. -/
def respAuth401 : Nat → WpResponse
  | _ => WpResponse.status 401

/-- Concrete oracle: network rejection, then 401, then success. -/
def respNetThen401 : Nat → WpResponse
  | 0 => WpResponse.netError "Failed to fetch"
  | 1 => WpResponse.status 401
  | _ => WpResponse.ok "9"

/-- C3 witness: concrete exchanges for each clause of the amended claim. -/
theorem auth_terminal_fetch_media_amended_witness :
    (fetchWpWithFallback "https://example.com" respAuth401
        = (Except.error (authDeniedMsg (tierLabel 0)), 1) ∧
      includesStr (authDeniedMsg (tierLabel 0)) (tierLabel 0) = true) ∧
    uploadWpMedia respAuth401 = (Except.error "Erro de Autenticação ao enviar imagem.", 1) ∧
    uploadWpMedia respMedia403 = (Except.ok "77", 2) ∧
    uploadWpMedia respNetThen401 = (Except.ok "9", 3) :=
  ⟨auth_terminal_fetch_media_amended.1 "https://example.com" respAuth401 0 401 (by omega)
      (fun j hj => absurd hj (Nat.not_lt_zero j)) (Or.inl rfl) rfl,
   auth_terminal_fetch_media_amended.2.1 respAuth401 rfl,
   auth_terminal_fetch_media_amended.2.2.1 respMedia403 "77" rfl rfl,
   auth_terminal_fetch_media_amended.2.2.2 respNetThen401 "Failed to fetch" "9" rfl
     (by decide) rfl rfl⟩

/-- If the first `j` attempts throw and attempt `j` yields non-empty text,
the rotation loop stops there with that text after `j + 1` attempts. -/
theorem rotateKeys_first_ok (attempt : Nat → GenAttempt) :
    ∀ (rest : List String) (i j : Nat) (lastErr t : String), j < rest.length →
      (∀ d, d < j → ∃ m, attempt (i + d) = GenAttempt.err m) →
      attempt (i + j) = GenAttempt.ok t → t ≠ "" →
      rotateKeys attempt i rest lastErr = (Except.ok t, j + 1) := by
  intro rest
  induction rest with
  | nil => intro i j lastErr t hj; simp at hj
  | cons x xs ih =>
      intro i j lastErr t hj hprev hok ht
      cases j with
      | zero =>
          have h0 : attempt i = GenAttempt.ok t := by simpa using hok
          simp [rotateKeys, h0, ht]
      | succ j =>
          obtain ⟨m, hm⟩ := hprev 0 (Nat.succ_pos j)
          have hm0 : attempt i = GenAttempt.err m := by simpa using hm
          have hrec := ih (i + 1) j m t (by simpa using Nat.lt_of_succ_lt_succ hj)
            (fun d hd => by
              obtain ⟨mm, hmm⟩ := hprev (d + 1) (Nat.succ_lt_succ hd)
              exact ⟨mm, by rw [show i + 1 + d = i + (d + 1) from by omega]; exact hmm⟩)
            (by rw [show i + 1 + j = i + (j + 1) from by omega]; exact hok) ht
          simp [rotateKeys, hm0, hrec]

/-- If every attempt throws, the rotation loop raises the error of the last
attempt after trying each key once. -/
theorem rotateKeys_all_err (attempt : Nat → GenAttempt) :
    ∀ (rest : List String) (i : Nat) (lastErr m : String), rest ≠ [] →
      (∀ d, d < rest.length → ∃ mm, attempt (i + d) = GenAttempt.err mm) →
      attempt (i + (rest.length - 1)) = GenAttempt.err m → m ≠ "" →
      rotateKeys attempt i rest lastErr = (Except.error m, rest.length) := by
  intro rest
  induction rest with
  | nil => intro i lastErr m h; exact absurd rfl h
  | cons x xs ih =>
      intro i lastErr m _ hall hlast hm
      obtain ⟨m0, hm0⟩ := hall 0 (by simp)
      have hm0i : attempt i = GenAttempt.err m0 := by simpa using hm0
      by_cases hxse : xs = []
      · subst hxse
        have h0 : attempt i = GenAttempt.err m := by simpa using hlast
        have hmm : m0 = m := by
          rw [hm0i] at h0
          exact (GenAttempt.err.injEq m0 m).mp h0
        subst hmm
        simp [rotateKeys, hm0i, hm]
      · have hlen : 1 ≤ xs.length := List.length_pos.mpr hxse
        have hrec := ih (i + 1) m0 m hxse
          (fun d hd => by
            obtain ⟨mm, hmm⟩ := hall (d + 1) (by simp; omega)
            exact ⟨mm, by rw [show i + 1 + d = i + (d + 1) from by omega]; exact hmm⟩)
          (by
            rw [show i + 1 + (xs.length - 1) = i + ((x :: xs).length - 1) from by
              simp [List.length_cons]; omega]
            exact hlast) hm
        have hstep : rotateKeys attempt i (x :: xs) lastErr
            = ((rotateKeys attempt (i + 1) xs m0).1,
               (rotateKeys attempt (i + 1) xs m0).2 + 1) := by
          simp only [rotateKeys, hm0i]
        rw [hstep, hrec]
        simp

/-- The rotation loop never attempts more keys than it is given. -/
theorem rotateKeys_count_le (attempt : Nat → GenAttempt) :
    ∀ (rest : List String) (i : Nat) (lastErr : String),
      (rotateKeys attempt i rest lastErr).2 ≤ rest.length := by
  intro rest
  induction rest with
  | nil => intro i lastErr; simp [rotateKeys]
  | cons x xs ih =>
      intro i lastErr
      cases hat : attempt i with
      | ok t =>
          by_cases ht : t = ""
          · simp [rotateKeys, hat, ht]
            exact ih _ _
          · simp [rotateKeys, hat, ht]
      | err m =>
          simp [rotateKeys, hat]
          exact ih _ _

/-- Rotation at the call level: errors up to position `j`, then non-empty
text, give that text after `j + 1` attempts. -/
theorem generate_first_ok (attempt : Nat → GenAttempt) (keys : List String)
    (j : Nat) (t : String) (hj : j < keys.length)
    (hprev : ∀ d, d < j → ∃ m, attempt d = GenAttempt.err m)
    (hok : attempt j = GenAttempt.ok t) (ht : t ≠ "") :
    generateGuestPostContent attempt keys = (Except.ok t, j + 1) := by
  have hne : keys ≠ [] := by
    intro h; rw [h] at hj; simp at hj
  unfold generateGuestPostContent
  rw [if_neg hne]
  exact rotateKeys_first_ok attempt keys 0 j "" t hj
    (fun d hd => by simpa using hprev d hd) (by simpa using hok) ht

/-- Rotation at the call level: when every key throws, the call raises the
last error after one attempt per key. -/
theorem generate_all_err (attempt : Nat → GenAttempt) (keys : List String)
    (m : String) (hne : keys ≠ [])
    (hall : ∀ d, d < keys.length → ∃ mm, attempt d = GenAttempt.err mm)
    (hlast : attempt (keys.length - 1) = GenAttempt.err m) (hm : m ≠ "") :
    generateGuestPostContent attempt keys = (Except.error m, keys.length) := by
  unfold generateGuestPostContent
  rw [if_neg hne]
  exact rotateKeys_all_err attempt keys 0 "" m hne
    (fun d hd => by simpa using hall d hd) (by simpa using hlast) hm

/-- C4: with no candidate key the Generation Client fails immediately with
the configuration error and zero attempts; otherwise the keys are tried in
order, the first non-empty text is returned immediately (so N−1 throwing
keys followed by a success give exactly N attempts), no key is attempted
twice, and when every key fails the last error is raised; the candidate list
stays duplicate-free when the stored keys are. -/
theorem generation_rotation_spec :
    (∀ attempt, generateGuestPostContent attempt [] = (Except.error noGeminiKeysMsg, 0)) ∧
    (∀ attempt (keys : List String) (j : Nat) (t : String), j < keys.length →
      (∀ d, d < j → ∃ m, attempt d = GenAttempt.err m) →
      attempt j = GenAttempt.ok t → t ≠ "" →
      generateGuestPostContent attempt keys = (Except.ok t, j + 1)) ∧
    (∀ attempt (keys : List String) (t : String), keys ≠ [] →
      (∀ d, d + 1 < keys.length → ∃ m, attempt d = GenAttempt.err m) →
      attempt (keys.length - 1) = GenAttempt.ok t → t ≠ "" →
      generateGuestPostContent attempt keys = (Except.ok t, keys.length)) ∧
    (∀ attempt (keys : List String) (m : String), keys ≠ [] →
      (∀ d, d < keys.length → ∃ mm, attempt d = GenAttempt.err mm) →
      attempt (keys.length - 1) = GenAttempt.err m → m ≠ "" →
      generateGuestPostContent attempt keys = (Except.error m, keys.length)) ∧
    (∀ attempt keys, (generateGuestPostContent attempt keys).2 ≤ keys.length) ∧
    (∀ (stored : List String) (envKey : Option String), stored.Nodup →
      (getAvailableApiKeys (some stored) envKey).Nodup) := by
  refine ⟨fun attempt => rfl, generate_first_ok, ?_, generate_all_err, ?_, ?_⟩
  · intro attempt keys t hne hprev hok ht
    have hlen : 1 ≤ keys.length := List.length_pos.mpr hne
    have hres := generate_first_ok attempt keys (keys.length - 1) t (by omega)
      (fun d hd => hprev d (by omega)) hok ht
    rw [hres]
    congr 1
    omega
  · intro attempt keys
    cases keys with
    | nil => simp [generateGuestPostContent]
    | cons x xs =>
        have hne : x :: xs ≠ [] := by simp
        unfold generateGuestPostContent
        rw [if_neg hne]
        exact rotateKeys_count_le attempt (x :: xs) 0 ""
  · intro stored envKey h
    simp only [getAvailableApiKeys, Option.getD]
    cases envKey with
    | none => exact List.Nodup.filter _ h
    | some k =>
        refine List.Nodup.filter _ ?_
        show (if k ≠ "" ∧ k ∉ stored then stored ++ [k] else stored).Nodup
        by_cases hk : k ≠ "" ∧ k ∉ stored
        · rw [if_pos hk, List.nodup_append]
          exact ⟨h, List.nodup_singleton k,
            fun a ha hb => hk.2 (by simpa [List.mem_singleton.mp hb] using ha)⟩
        · rw [if_neg hk]
          exact h

/-- Concrete attempt oracle: the first two keys throw, the third succeeds. -/
def attempt3 : Nat → GenAttempt
  | 0 => GenAttempt.err "quota excedida"
  | 1 => GenAttempt.err "erro 500"
  | _ => GenAttempt.ok "texto gerado"

/-- C4 witness: concrete rotations — no key, two throwing keys before a
success, all keys failing, and the deduplicated candidate list. -/
theorem generation_rotation_spec_witness :
    generateGuestPostContent attempt3 [] = (Except.error noGeminiKeysMsg, 0) ∧
    generateGuestPostContent attempt3 ["k1", "k2", "k3"] = (Except.ok "texto gerado", 3) ∧
    generateGuestPostContent (fun _ => GenAttempt.err "falha") ["k1", "k2"]
      = (Except.error "falha", 2) ∧
    (getAvailableApiKeys (some ["a", "b"]) (some "c")).Nodup :=
  ⟨generation_rotation_spec.1 attempt3,
   generation_rotation_spec.2.2.1 attempt3 ["k1", "k2", "k3"] "texto gerado" (by simp)
     (fun d hd => by
       have hd2 : d < 2 := by simp at hd; omega
       interval_cases d <;> exact ⟨_, rfl⟩) rfl (by decide),
   generation_rotation_spec.2.2.2.1 (fun _ => GenAttempt.err "falha") ["k1", "k2"] "falha"
     (by simp) (fun d _ => ⟨"falha", rfl⟩) rfl (by decide),
   generation_rotation_spec.2.2.2.2.2 ["a", "b"] (some "c") (by decide)⟩

/-- Draining run: with fuel equal to the queue length the batch worker
empties the queue, bumps `processed` once per job, preserves `total`,
processes the jobs in queue order, and appends exactly the per-job log
lines. -/
theorem runBatch_drains (effects : QueueItem → JobEffects) :
    ∀ (jobs : List QueueItem) (s : AppState), s.queue = jobs →
      (runBatch effects jobs.length s).1.queue = [] ∧
      (runBatch effects jobs.length s).1.batchProgress.processed
        = s.batchProgress.processed + jobs.length ∧
      (runBatch effects jobs.length s).1.batchProgress.total = s.batchProgress.total ∧
      (runBatch effects jobs.length s).2.map StepTrace.item = jobs ∧
      (runBatch effects jobs.length s).1.batchProgress.logs
        = s.batchProgress.logs
          ++ (jobs.map fun it =>
                (runJobBody s.isDemoMode s.batchToken effects it).logsAdded).join := by
  intro jobs
  induction jobs with
  | nil =>
      intro s hq
      exact ⟨by simpa [runBatch] using hq, by simp [runBatch], by simp [runBatch],
        by simp [runBatch], by simp [runBatch]⟩
  | cons item rest ih =>
      intro s hq
      obtain ⟨hq2, hpr, htot, hmap, hlogs⟩ :=
        ih (finishItem s item rest (runJobBody s.isDemoMode s.batchToken effects item)) rfl
      have hrun : runBatch effects (item :: rest).length s
          = ((runBatch effects rest.length
                (finishItem s item rest (runJobBody s.isDemoMode s.batchToken effects item))).1,
             { item := item,
               outcome := runJobBody s.isDemoMode s.batchToken effects item,
               cooldownMs := cooldownAfterJob s.isDemoMode s.queue }
               :: (runBatch effects rest.length
                    (finishItem s item rest
                      (runJobBody s.isDemoMode s.batchToken effects item))).2) := by
        simp only [List.length_cons, runBatch, hq]
      rw [hrun]
      refine ⟨hq2, ?_, ?_, ?_, ?_⟩
      · rw [hpr]
        simp [finishItem, List.length_cons]
        omega
      · rw [htot]
        simp [finishItem]
      · simp only [List.map_cons, hmap]
      · rw [hlogs]
        simp [finishItem, List.append_assoc]

/-- A generation failure inside a non-demo job pipeline produces the error
log line for that job. -/
theorem runJobBody_gen_error_logged (token : Option String)
    (effects : QueueItem → JobEffects) (item : QueueItem) (m : String)
    (hg : (effects item).gen = Except.error m) :
    errorLogFor item.request.keyword m ∈ (runJobBody false token effects item).logsAdded := by
  simp [runJobBody, hg]

/-- C1: importing a non-empty row list while the engine is idle and then
letting the worker drain the queue processes the jobs in input order, leaves
the queue empty with `processed = total = number of jobs`, and logs every
generation failure without halting the batch. -/
theorem batch_processes_all_in_order
    (effects : QueueItem → JobEffects) (sheetId : String) (rows : List (List String))
    (token : String) (s0 : AppState)
    (hmode : s0.mode ≠ AppMode.BULK_PUBLISH) (hdemo : s0.isDemoMode = false)
    (hnonempty : buildQueue sheetId rows ≠ []) :
    let jobs := buildQueue sheetId rows
    let s1 := handleSheetImport sheetId rows token s0
    let r := runBatch effects jobs.length s1
    r.2.map StepTrace.item = jobs ∧
    r.1.queue = [] ∧
    r.1.batchProgress.processed = r.1.batchProgress.total ∧
    r.1.batchProgress.total = jobs.length ∧
    (∀ item ∈ jobs, ∀ m, (effects item).gen = Except.error m →
        errorLogFor item.request.keyword m ∈ r.1.batchProgress.logs) := by
  intro jobs s1 r
  have hs1 : s1 = { s0 with
      batchToken := some token,
      queue := jobs,
      batchProgress :=
        { isActive := true, total := jobs.length, processed := 0,
          currentKeyword := "", logs := [importStartLog jobs.length] } } := by
    show handleSheetImport sheetId rows token s0 = _
    simp [handleSheetImport, hmode, hdemo, hnonempty]
  have hq : s1.queue = jobs := by rw [hs1]
  obtain ⟨hqe, hpr, htot, hmap, hlogs⟩ := runBatch_drains effects jobs s1 hq
  refine ⟨hmap, hqe, ?_, ?_, ?_⟩
  · rw [hpr, htot, hs1]
    simp
  · rw [htot, hs1]
  · intro item hitem m hg
    have hdm : s1.isDemoMode = false := by rw [hs1]; exact hdemo
    have hmem : errorLogFor item.request.keyword m
        ∈ (runJobBody s1.isDemoMode s1.batchToken effects item).logsAdded := by
      rw [hdm]
      exact runJobBody_gen_error_logged s1.batchToken effects item m hg
    show errorLogFor item.request.keyword m ∈ (runBatch effects jobs.length s1).1.batchProgress.logs
    rw [hlogs]
    refine List.mem_append.mpr (Or.inr ?_)
    exact List.mem_join.mpr ⟨_, List.mem_map_of_mem _ hitem, hmem⟩

/-- The all-zero Batch Progress the App starts with. -/
def emptyProgress : BatchProgress :=
  { isActive := false, total := 0, processed := 0, currentKeyword := "", logs := [] }

/-- Idle App state: nothing queued, no batch running. -/
def idleState : AppState :=
  { mode := AppMode.SINGLE, queue := [], isProcessingBatch := false,
    batchProgress := emptyProgress, batchToken := none, isDemoMode := false,
    articles := [], bulkImportData := none }

/-- Effects where generation fails for keyword B and everything else
succeeds. -/
def effectsBFail : QueueItem → JobEffects :=
  fun item =>
    if item.request.keyword = "B" then
      { gen := Except.error "Quota",
        drive := Except.ok ⟨"https://doc/b", "db"⟩,
        sheet := Except.ok () }
    else effectsAllOk item

/-- C1 witness: three imported rows, the middle one failing generation — the
drained batch still reaches processed = total and logs the failure. -/
theorem batch_processes_all_in_order_witness :
    (runBatch effectsBFail (buildQueue "s" [["A"], ["B"], ["C"]]).length
        (handleSheetImport "s" [["A"], ["B"], ["C"]] "tok" idleState)).1.batchProgress.processed
      = (runBatch effectsBFail (buildQueue "s" [["A"], ["B"], ["C"]]).length
          (handleSheetImport "s" [["A"], ["B"], ["C"]] "tok" idleState)).1.batchProgress.total ∧
    errorLogFor "B" "Quota"
      ∈ (runBatch effectsBFail (buildQueue "s" [["A"], ["B"], ["C"]]).length
          (handleSheetImport "s" [["A"], ["B"], ["C"]] "tok" idleState)).1.batchProgress.logs :=
  ⟨(batch_processes_all_in_order effectsBFail "s" [["A"], ["B"], ["C"]] "tok" idleState
      (by decide) rfl (by decide)).2.2.1,
   (batch_processes_all_in_order effectsBFail "s" [["A"], ["B"], ["C"]] "tok" idleState
      (by decide) rfl (by decide)).2.2.2.2 (buildQueueItem "s" 1 ["B"]) (by decide) "Quota" rfl⟩

/-- Reachable engine states tie the in-flight list to the guard flag. -/
theorem engine_inflight_inv (s : EngineState) (h : ReachesEngine s) :
    s.inFlight.length = (if s.isProcessingBatch then 1 else 0) := by
  induction h with
  | init => rfl
  | @step s1 t hr hstep ih =>
      cases hstep with
      | invoke =>
          cases hq : s1.queue with
          | nil => simpa [invokeConsumer, hq] using ih
          | cons it rest =>
              cases hf : s1.isProcessingBatch with
              | true => simpa [invokeConsumer, hq, hf] using ih
              | false =>
                  rw [hf] at ih
                  simp at ih
                  simp [invokeConsumer, hq, hf, List.length_append, ih]
      | finish hflag => rfl
      | importJobs newJobs hne => simpa using ih

/-- C2: in every reachable state at most one job is in flight, and the
consumer invocation is a no-op whenever a job is already processing or the
queue is empty. -/
theorem single_job_in_flight (s : EngineState) (h : ReachesEngine s) :
    s.inFlight.length ≤ 1 ∧
    (s.isProcessingBatch = true → invokeConsumer s = s) ∧
    (s.queue = [] → invokeConsumer s = s) := by
  refine ⟨?_, ?_, ?_⟩
  · rw [engine_inflight_inv s h]
    split <;> omega
  · intro hf
    cases hq : s.queue with
    | nil => simp [invokeConsumer, hq]
    | cons a l => simp [invokeConsumer, hq, hf]
  · intro hq
    simp [invokeConsumer, hq]

/-- Engine state with one queued job and no job in flight. -/
def oneQueuedState : EngineState :=
  { queue := [sampleItem], isProcessingBatch := false, inFlight := [], total := 1,
    processed := 0 }

/-- C2 witness: a reachable state right after the consumer picked up the
only queued job still has at most one job in flight. -/
theorem single_job_in_flight_witness :
    (invokeConsumer oneQueuedState).inFlight.length ≤ 1 :=
  (single_job_in_flight _
    (ReachesEngine.step
      (ReachesEngine.step ReachesEngine.init
        (EngineStep.importJobs initEngine [sampleItem] (by simp)))
      (EngineStep.invoke _))).1

/-- Batch Progress of a half-finished batch of two jobs. -/
def activeProgress : BatchProgress :=
  { isActive := true, total := 2, processed := 1, currentKeyword := "Pendente",
    logs := ["Sucesso antigo"] }

/-- Mid-batch App state used by the C5 counterexample: one job already
processed, one still queued, the log panel holding an earlier entry. -/
def activeBatchState : AppState :=
  { mode := AppMode.SINGLE,
    queue := [buildQueueItem "sheetA" 1 ["Pendente"]],
    isProcessingBatch := false,
    batchProgress := activeProgress,
    batchToken := some "tokA", isDemoMode := false, articles := [], bulkImportData := none }

/-- C5 counterexample: an import arriving while a batch is active does not
append the new jobs to the tail of the active queue and does not merely add
to `total` — the code replaces the queue and resets Batch Progress
(total, processed and logs) even though a batch was active. -/
theorem import_while_active_counterexample :
    (handleSheetImport "sheetB" [["Nova"]] "tokB" activeBatchState).batchProgress.total = 1 ∧
    (handleSheetImport "sheetB" [["Nova"]] "tokB" activeBatchState).batchProgress.total
      ≠ activeBatchState.batchProgress.total + (buildQueue "sheetB" [["Nova"]]).length ∧
    (handleSheetImport "sheetB" [["Nova"]] "tokB" activeBatchState).queue
      ≠ activeBatchState.queue ++ buildQueue "sheetB" [["Nova"]] ∧
    (handleSheetImport "sheetB" [["Nova"]] "tokB" activeBatchState).batchProgress.processed = 0 ∧
    activeBatchState.batchProgress.processed = 1 ∧
    (handleSheetImport "sheetB" [["Nova"]] "tokB" activeBatchState).batchProgress.logs
      = [importStartLog 1] :=
  ⟨rfl, by decide, by decide, rfl, rfl, rfl⟩

/-- C5 amended: a generation-mode import with at least one valid row replaces
the queue with the new jobs and unconditionally reinitializes Batch Progress
(total := number of new jobs, processed := 0, fresh logs), whether or not a
batch was active; still-queued jobs are discarded and no second consumer is
started (the in-flight flag is untouched). -/
theorem import_replaces_queue_amended (sheetId : String) (rows : List (List String))
    (token : String) (s : AppState)
    (hmode : s.mode ≠ AppMode.BULK_PUBLISH) (hdemo : s.isDemoMode = false)
    (hvalid : buildQueue sheetId rows ≠ []) :
    (handleSheetImport sheetId rows token s).queue = buildQueue sheetId rows ∧
    (handleSheetImport sheetId rows token s).batchProgress.total
      = (buildQueue sheetId rows).length ∧
    (handleSheetImport sheetId rows token s).batchProgress.processed = 0 ∧
    (handleSheetImport sheetId rows token s).batchProgress.logs
      = [importStartLog (buildQueue sheetId rows).length] ∧
    (handleSheetImport sheetId rows token s).batchToken = some token ∧
    (handleSheetImport sheetId rows token s).isProcessingBatch = s.isProcessingBatch := by
  simp [handleSheetImport, hmode, hdemo, hvalid]

/-- C5 witness: the concrete mid-batch import of one valid row. -/
theorem import_replaces_queue_amended_witness :
    (handleSheetImport "sheetB" [["Nova"]] "tokB" activeBatchState).queue
      = buildQueue "sheetB" [["Nova"]] ∧
    (handleSheetImport "sheetB" [["Nova"]] "tokB" activeBatchState).batchProgress.total
      = (buildQueue "sheetB" [["Nova"]]).length ∧
    (handleSheetImport "sheetB" [["Nova"]] "tokB" activeBatchState).batchProgress.processed = 0 ∧
    (handleSheetImport "sheetB" [["Nova"]] "tokB" activeBatchState).batchProgress.logs
      = [importStartLog (buildQueue "sheetB" [["Nova"]]).length] ∧
    (handleSheetImport "sheetB" [["Nova"]] "tokB" activeBatchState).batchToken = some "tokB" ∧
    (handleSheetImport "sheetB" [["Nova"]] "tokB" activeBatchState).isProcessingBatch
      = activeBatchState.isProcessingBatch :=
  import_replaces_queue_amended "sheetB" [["Nova"]] "tokB" activeBatchState
    (by decide) rfl (by decide)

/-- C7: with a resolved site, an attached image is uploaded strictly before
the post-creation request; a failed upload aborts the whole operation with
the upload error and no post-creation request; any failure parks the draft
in `error` with the message verbatim and the publish control re-enabled,
while success stores the returned public link and lands in the terminal
`success` status whose publish control is disabled. -/
theorem publish_orchestrator_spec (sites : List String)
    (upload create : Except String String) (d : BulkPostDraft)
    (hid : d.matchedSiteId ≠ "") (hmem : d.matchedSiteId ∈ sites) :
    (d.hasImage = true →
      (handlePublish sites upload create d).2 = [PublishEvent.uploadImage] ∨
      (handlePublish sites upload create d).2
        = [PublishEvent.uploadImage, PublishEvent.createPost]) ∧
    (∀ m, d.hasImage = true → upload = Except.error m →
      (handlePublish sites upload create d).1.status = DraftStatus.error ∧
      (handlePublish sites upload create d).1.errorMsg = m ∧
      PublishEvent.createPost ∉ (handlePublish sites upload create d).2) ∧
    (∀ m, create = Except.error m →
      (d.hasImage = false ∨ ∃ mid, upload = Except.ok mid) →
      (handlePublish sites upload create d).1.status = DraftStatus.error ∧
      (handlePublish sites upload create d).1.errorMsg = m) ∧
    (∀ link, create = Except.ok link →
      (d.hasImage = false ∨ ∃ mid, upload = Except.ok mid) →
      (handlePublish sites upload create d).1.status = DraftStatus.success ∧
      (handlePublish sites upload create d).1.publishedLink = link) ∧
    ((handlePublish sites upload create d).1.status = DraftStatus.error →
      publishButtonDisabled (handlePublish sites upload create d).1 = false) ∧
    ((handlePublish sites upload create d).1.status = DraftStatus.success →
      publishButtonDisabled (handlePublish sites upload create d).1 = true) := by
  have hms : (handlePublish sites upload create d).1.matchedSiteId = d.matchedSiteId := by
    by_cases hImg : d.hasImage <;> cases upload <;> cases create <;>
      simp [handlePublish, hid, hmem, hImg]
  refine ⟨?_, ?_, ?_, ?_, ?_, ?_⟩
  · intro hImg
    cases upload with
    | error m => left; simp [handlePublish, hid, hmem, hImg]
    | ok mid =>
        right
        cases create with
        | error m => simp [handlePublish, hid, hmem, hImg]
        | ok link => simp [handlePublish, hid, hmem, hImg]
  · intro m hImg hup
    subst hup
    simp [handlePublish, hid, hmem, hImg]
  · intro m hcr hok
    subst hcr
    rcases hok with hni | ⟨mid, hup⟩
    · simp [handlePublish, hid, hmem, hni]
    · subst hup
      by_cases hImg : d.hasImage <;> simp [handlePublish, hid, hmem, hImg]
  · intro link hcr hok
    subst hcr
    rcases hok with hni | ⟨mid, hup⟩
    · simp [handlePublish, hid, hmem, hni]
    · subst hup
      by_cases hImg : d.hasImage <;> simp [handlePublish, hid, hmem, hImg]
  · intro hst
    have : ¬ (d.matchedSiteId = "") := hid
    simp [publishButtonDisabled, hst, hms, this]
  · intro hst
    simp [publishButtonDisabled, hst]

/-- Draft ready to publish, with an image attached and a matched site. -/
def sampleDraft : BulkPostDraft :=
  { id := 1, keyword := "kw", title := "Titulo", content := "Corpo", slug := "titulo",
    metaDesc := "", matchedSiteId := "site1", hasImage := true, categoryId := "",
    status := DraftStatus.idle, errorMsg := "", publishedLink := "" }

/-- C7 witness: a failed image upload aborts before any post-creation
request, surfaces the upload error verbatim, and leaves the errored draft
resubmittable. -/
theorem publish_orchestrator_spec_witness :
    (handlePublish ["site1"] (Except.error "Falha no upload")
        (Except.ok "https://site/post") sampleDraft).1.status = DraftStatus.error ∧
    (handlePublish ["site1"] (Except.error "Falha no upload")
        (Except.ok "https://site/post") sampleDraft).1.errorMsg = "Falha no upload" ∧
    PublishEvent.createPost ∉ (handlePublish ["site1"] (Except.error "Falha no upload")
        (Except.ok "https://site/post") sampleDraft).2 ∧
    publishButtonDisabled (handlePublish ["site1"] (Except.error "Falha no upload")
        (Except.ok "https://site/post") sampleDraft).1 = false := by
  have t := publish_orchestrator_spec ["site1"] (Except.error "Falha no upload")
    (Except.ok "https://site/post") sampleDraft (by decide) (by decide)
  exact ⟨(t.2.1 "Falha no upload" rfl rfl).1, (t.2.1 "Falha no upload" rfl rfl).2.1,
    (t.2.1 "Falha no upload" rfl rfl).2.2,
    t.2.2.2.2.1 (t.2.1 "Falha no upload" rfl rfl).1⟩

end Postsais
